import Mathlib

/-!
Shallow embedding of `src/golem/task/taskcomputer.py` (the Task Computer of
the golem repository).  Python dictionaries are modelled as `AList` over
`Nat` keys, wall-clock reads (`time.time()`) and the task server's replies
are supplied through an explicit `Env` record, and every outbound call on a
collaborator (task server, monitor, docker manager) is recorded as an
`Effect`.  An operation that would raise an uncaught Python exception
(`KeyError` on a missing task header) returns `none`.
-/

set_option linter.unusedVariables false

/-- A task header supplied by the external task keeper
(`task_server.task_keeper.task_headers[task_id]`). -/
structure TaskHeader where
  deadline : Int
  subtask_timeout : Int
deriving DecidableEq, Repr

/-- The compute-task definition (`ctd`) handed to `task_given`.  Fields are
exactly those the Task Computer reads; opaque payload blobs are plain
strings / numbers. -/
structure Ctd where
  subtask_id : Nat
  task_id : Nat
  deadline : Int
  docker_images : List String
  src_code : String
  extra_data : Nat
  short_description : String
  working_directory : String
  return_address : String
  return_port : Nat
  key_id : String
  task_owner : Nat
deriving DecidableEq, Repr

/-- A worker thread as constructed by `__compute_task`
(`DockerTaskThread` when `docker` is true, `PyTaskThread` otherwise).
The opaque payload parameters (source code, extra data, directories) are
routed into the thread unchanged and are not needed by any property, so the
model keeps the fields the Task Computer itself consults. -/
structure Worker where
  subtask_id : Nat
  timeout : Int
  docker : Bool
deriving DecidableEq, Repr

/-- A finished task thread as seen by the `task_computed` callback. -/
structure TaskThreadDone where
  subtask_id : Nat
  start_time : Int
  end_time : Option Int
  error : Bool
  error_msg : String
  result : Option (List (String × String))
deriving DecidableEq, Repr

/-- `CompStats`: the counter fields kept by the `IntStatsKeeper`. -/
structure CompStats where
  computed_tasks : Nat
  tasks_with_timeout : Nat
  tasks_with_errors : Nat
  tasks_requested : Nat
deriving DecidableEq, Repr

/-- Outbound calls on collaborators, in the order they are issued. -/
inductive Effect where
  | send_task_failed (subtask_id : Nat) (task_id : Nat) (reason : String)
  | send_results (subtask_id : Nat) (task_id : Nat)
      (result : List (String × String)) (paid_time : Int)
  | monitor_computation_time_spent (success : Bool) (value : Int)
  | request_resource (task_id : Nat)
  | request_task
  | unpack_delta (task_id : Nat)
  | spawn_worker (w : Worker)
  | check_timeout (subtask_id : Nat)
  | build_config
  | lock_config (flag : Bool)
  | update_config
  | run_all_benchmarks
deriving DecidableEq, Repr

/-- The mutable attributes of the `TaskComputer` singleton. -/
structure TCState where
  assigned_subtasks : AList (fun _ : Nat => Ctd)
  task_to_subtask_mapping : AList (fun _ : Nat => Nat)
  waiting_for_task : Option Nat
  counting_task : Option Nat
  task_requested : Bool
  runnable : Bool
  current_computations : List Worker
  last_task_request : Int
  waiting_ttl : Int
  last_checking : Int
  use_waiting_ttl : Bool
  waiting_for_task_timeout : Int
  waiting_for_task_session_timeout : Int
  task_request_frequency : Int
  compute_tasks : Bool
  support_direct_computation : Bool
  max_assigned_tasks : Nat
  delta : Option Nat
  last_task_timeout_checking : Option Int
  use_docker_machine_manager : Bool
  stats : CompStats
deriving DecidableEq

/-- The external world read by one call: the clock, the task server's reply
to `request_task` / `request_resource`, the task keeper's header table and
the docker manager's `docker_machine` attribute. -/
structure Env where
  now : Int
  request_task_result : Option Nat
  request_resource_result : Option Nat
  task_headers : Nat → Option TaskHeader
  docker_machine : Bool

/-- Modelled from the spec: `deadline_to_timeout` is imported from
`golem/core/common.py`, which is not among the sources; the spec describes
it as converting an absolute deadline (epoch seconds) into the remaining
time from now. -/
def deadline_to_timeout (deadline : Int) (now : Int) : Int :=
  deadline - now

/-- Substring test on character lists, modelling Python's
`needle in haystack` for strings. -/
def hasSub (hay : List Char) (needle : List Char) : Bool :=
  match hay with
  | [] => needle.isEmpty
  | c :: t => needle.isPrefixOf (c :: t) || hasSub t needle

/-- Python truthiness of `task_thread.result` combined with the two key
membership tests `'data' in result and 'result_type' in result`. -/
def resultWellFormed (r : Option (List (String × String))) : Bool :=
  match r with
  | none => false
  | some d => !d.isEmpty && (d.lookup "data").isSome && (d.lookup "result_type").isSome

/-- `TaskComputer.wait(wait=True, ttl=None)`. -/
def wait (s : TCState) (w : Bool) (ttl : Option Int) : TCState :=
  let s1 := { s with use_waiting_ttl := w }
  match ttl with
  | none => { s1 with waiting_ttl := s1.waiting_for_task_session_timeout }
  | some t => { s1 with waiting_ttl := t }

/-- `TaskComputer.reset(computing_task=False)`; `none` stands for the
falsy Python default. -/
def reset (s : TCState) (computing_task : Option Nat) : TCState :=
  { s with counting_task := computing_task
         , use_waiting_ttl := false
         , task_requested := false
         , waiting_for_task := none
         , waiting_ttl := 0 }

/-- `TaskComputer.session_closed`: reset unless a task is being counted. -/
def session_closed (s : TCState) : TCState :=
  if s.counting_task.isSome then s else reset s none

/-- `TaskComputer.__request_resource`: stamps `last_checking`, rearms the
wait TTL and stores the task server's reply handle. -/
def __request_resource (env : Env) (task_id : Nat) (s : TCState) :
    TCState × List Effect :=
  let s1 := { s with last_checking := env.now }
  let s2 := wait s1 true (some s1.waiting_for_task_timeout)
  ({ s2 with waiting_for_task := env.request_resource_result },
   [Effect.request_resource task_id])

/-- `TaskComputer.task_given`. -/
def task_given (env : Env) (ctd : Ctd) (s : TCState) :
    TCState × List Effect × Bool :=
  if (s.assigned_subtasks.lookup ctd.subtask_id).isSome then
    (s, [], false)
  else
    let s1 := wait s true (some s.waiting_for_task_timeout)
    let s2 := { s1 with
        assigned_subtasks := s1.assigned_subtasks.insert ctd.subtask_id ctd
      , task_to_subtask_mapping :=
          s1.task_to_subtask_mapping.insert ctd.task_id ctd.subtask_id }
    let p := __request_resource env ctd.task_id s2
    (p.1, p.2, true)

/-- `TaskComputer.__compute_task`.  Returns `none` when a dictionary access
the Python code performs unguarded (`assigned_subtasks[subtask_id]`,
`task_headers[task_id]`) would raise `KeyError`.  The opaque payload
arguments (`src_code`, `extra_data`, `short_desc`) are routed into the
thread unchanged and are not modelled. -/
def __compute_task (env : Env) (subtask_id : Nat) (docker_images : List String)
    (subtask_deadline : Int) (s : TCState) : Option (TCState × List Effect) :=
  match s.assigned_subtasks.lookup subtask_id with
  | none => none
  | some ctd0 =>
    let task_id := ctd0.task_id
    match env.task_headers task_id with
    | none => none
    | some task_header =>
      let deadline := min task_header.deadline subtask_deadline
      let task_timeout := deadline_to_timeout deadline env.now
      let s1 := reset s (some task_id)
      if !docker_images.isEmpty then
        let tt : Worker := ⟨subtask_id, task_timeout, true⟩
        some ({ s1 with current_computations := s1.current_computations ++ [tt] },
              [Effect.spawn_worker tt])
      else if s1.support_direct_computation then
        let tt : Worker := ⟨subtask_id, task_timeout, false⟩
        some ({ s1 with current_computations := s1.current_computations ++ [tt] },
              [Effect.spawn_worker tt])
      else
        match s1.assigned_subtasks.lookup subtask_id with
        | none => none
        | some subtask =>
          some ({ s1 with
                    assigned_subtasks := s1.assigned_subtasks.erase subtask_id
                  , counting_task := none },
                [Effect.send_task_failed subtask_id subtask.task_id
                    "Host direct task not supported"])

/-- `TaskComputer.resource_given`.  The third component is Python's return
value (`none` models falling off the end of the function). -/
def resource_given (env : Env) (task_id : Nat) (s : TCState) :
    Option (TCState × List Effect × Option Bool) :=
  match s.task_to_subtask_mapping.lookup task_id with
  | none => some (s, [], none)
  | some subtask_id =>
    match s.assigned_subtasks.lookup subtask_id with
    | none => some (s, [], some false)
    | some subtask =>
      match __compute_task env subtask_id subtask.docker_images
          subtask.deadline s with
      | none => none
      | some (s1, effs) =>
        some ({ s1 with waiting_for_task := none }, effs, some true)

/-- `TaskComputer.task_resource_collected`. -/
def task_resource_collected (env : Env) (task_id : Nat) (unpack : Bool)
    (s : TCState) : Option (TCState × List Effect × Option Bool) :=
  match s.task_to_subtask_mapping.lookup task_id with
  | none => some (s, [], none)
  | some subtask_id =>
    match s.assigned_subtasks.lookup subtask_id with
    | none => some (s, [], some false)
    | some subtask =>
      let effs0 := if unpack then [Effect.unpack_delta task_id] else []
      let s1 := { s with delta := none
                       , last_task_timeout_checking := some env.now }
      match __compute_task env subtask_id subtask.docker_images
          subtask.deadline s1 with
      | none => none
      | some (s2, effs) => some (s2, effs0 ++ effs, some true)

/-- `TaskComputer.task_resource_failure`. -/
def task_resource_failure (task_id : Nat) (reason : String) (s : TCState) :
    TCState × List Effect :=
  match s.task_to_subtask_mapping.lookup task_id with
  | none => (s, [])
  | some subtask_id =>
    let s1 := { s with task_to_subtask_mapping :=
                  s.task_to_subtask_mapping.erase task_id }
    match s1.assigned_subtasks.lookup subtask_id with
    | none => (session_closed s1, [])
    | some subtask =>
      let s2 := { s1 with assigned_subtasks :=
                    s1.assigned_subtasks.erase subtask_id }
      (session_closed s2,
       [Effect.send_task_failed subtask_id subtask.task_id
          ("Error downloading resources: " ++ reason)])

/-- `TaskComputer.wait_for_resources`: records the delta when the task is
known. -/
def wait_for_resources (task_id : Nat) (delta : Nat) (s : TCState) : TCState :=
  match s.task_to_subtask_mapping.lookup task_id with
  | none => s
  | some subtask_id =>
    if (s.assigned_subtasks.lookup subtask_id).isSome then
      { s with delta := some delta }
    else s

/-- `TaskComputer.task_request_rejected`: logging only. -/
def task_request_rejected (task_id : Nat) (reason : String) (s : TCState) :
    TCState × List Effect :=
  (s, [])

/-- `TaskComputer.resource_request_rejected`: discards the
`assigned_subtasks` entry (and only that one) and resets. -/
def resource_request_rejected (subtask_id : Nat) (reason : String)
    (s : TCState) : TCState × List Effect :=
  (reset { s with assigned_subtasks := s.assigned_subtasks.erase subtask_id }
     none, [])

/-- Remove the first worker carrying the given subtask id: the model of
`current_computations.remove(task_thread)` (identity removal keyed by the
finished thread), tolerating absence. -/
def removeWorker (subtask_id : Nat) : List Worker → List Worker
  | [] => []
  | w :: t => if w.subtask_id = subtask_id then t else w :: removeWorker subtask_id t

/-- `TaskComputer.task_computed`: the outcome dispatcher.  Note that the
Python code pops `assigned_subtasks[subtask_id]` and reads
`task_headers[subtask.task_id]` inside one `try`: when the header is
missing the subtask has already been removed but the function logs and
returns with no outbound call and without clearing `counting_task`. -/
def task_computed (env : Env) (tt : TaskThreadDone) (s : TCState) :
    TCState × List Effect :=
  let end_time := tt.end_time.getD env.now
  let s0 := { s with current_computations :=
                removeWorker tt.subtask_id s.current_computations }
  let work_wall_clock_time := end_time - tt.start_time
  let subtask_id := tt.subtask_id
  match s0.assigned_subtasks.lookup subtask_id with
  | none => (s0, [])
  | some subtask =>
    let s1 := { s0 with assigned_subtasks :=
                  s0.assigned_subtasks.erase subtask_id }
    match env.task_headers subtask.task_id with
    | none => (s1, [])
    | some task_header =>
      let work_time_to_be_paid := task_header.subtask_timeout
      if tt.error || !(tt.error_msg == "") then
        let s2 :=
          if hasSub tt.error_msg.data "Task timed out".data then
            { s1 with stats := { s1.stats with
                tasks_with_timeout := s1.stats.tasks_with_timeout + 1 } }
          else
            { s1 with stats := { s1.stats with
                tasks_with_errors := s1.stats.tasks_with_errors + 1 } }
        ({ s2 with counting_task := none },
         [Effect.send_task_failed subtask_id subtask.task_id tt.error_msg,
          Effect.monitor_computation_time_spent false work_time_to_be_paid])
      else if resultWellFormed tt.result then
        let s2 := { s1 with stats := { s1.stats with
            computed_tasks := s1.stats.computed_tasks + 1 } }
        ({ s2 with counting_task := none },
         [Effect.send_results subtask_id subtask.task_id (tt.result.getD [])
            work_time_to_be_paid,
          Effect.monitor_computation_time_spent true work_time_to_be_paid])
      else
        let s2 := { s1 with stats := { s1.stats with
            tasks_with_errors := s1.stats.tasks_with_errors + 1 } }
        ({ s2 with counting_task := none },
         [Effect.send_task_failed subtask_id subtask.task_id
            "Wrong result format",
          Effect.monitor_computation_time_spent false work_time_to_be_paid])

/-- `TaskComputer.__request_task`. -/
def __request_task (env : Env) (s : TCState) : TCState × List Effect :=
  let perform_request := s.waiting_for_task.isNone && s.counting_task.isNone
  if !perform_request then (s, [])
  else
    let s1 := wait s true none
    let s2 := { s1 with last_checking := env.now
                      , last_task_request := env.now
                      , waiting_for_task := env.request_task_result }
    if s2.waiting_for_task.isSome then
      ({ s2 with stats := { s2.stats with
           tasks_requested := s2.stats.tasks_requested + 1 } },
       [Effect.request_task])
    else (s2, [Effect.request_task])

/-- `TaskComputer.run`: the tick entry point. -/
def run (env : Env) (s : TCState) : TCState × List Effect :=
  if s.counting_task.isSome then
    (s, s.current_computations.map (fun w => Effect.check_timeout w.subtask_id))
  else if s.compute_tasks && s.runnable then
    if s.waiting_for_task.isNone then
      if env.now - s.last_task_request > s.task_request_frequency then
        if s.current_computations.length = 0 then
          __request_task env s
        else (s, [])
      else (s, [])
    else if s.use_waiting_ttl then
      let time_ := env.now
      let s1 := { s with waiting_ttl := s.waiting_ttl - (time_ - s.last_checking)
                       , last_checking := time_ }
      if s1.waiting_ttl < 0 then (reset s1 none, []) else (s1, [])
    else (s, [])
  else (s, [])

/-- `TaskComputer.change_docker_config` (the docker manager's
`build_config`, the listener broadcast and `update_config` become
effects; `runnable` is cleared before `update_config` is issued). -/
def change_docker_config (env : Env) (run_benchmarks : Bool) (s : TCState) :
    TCState × List Effect :=
  if !env.docker_machine && run_benchmarks then
    (s, [Effect.build_config, Effect.run_all_benchmarks])
  else if env.docker_machine && s.use_docker_machine_manager then
    ({ s with runnable := false },
     [Effect.build_config, Effect.lock_config true, Effect.update_config])
  else (s, [Effect.build_config])

/-- The `done_callback` closure handed to the docker manager by
`change_docker_config`. -/
def done_callback (run_benchmarks : Bool) (s : TCState) :
    TCState × List Effect :=
  ({ s with runnable := true },
   (if run_benchmarks then [Effect.run_all_benchmarks] else []) ++
     [Effect.lock_config false])

/-- The configuration scalars `change_config` copies. -/
structure ConfigDesc where
  task_request_interval : Int
  waiting_for_task_timeout : Int
  waiting_for_task_session_timeout : Int
  accept_tasks : Bool
deriving DecidableEq, Repr

/-- `TaskComputer.change_config`: copies the scalar options and delegates
to `change_docker_config` (directory and resource managers are
filesystem collaborators outside the model). -/
def change_config (env : Env) (cfg : ConfigDesc) (run_benchmarks : Bool)
    (s : TCState) : TCState × List Effect :=
  let s1 := { s with task_request_frequency := cfg.task_request_interval
                   , waiting_for_task_timeout := cfg.waiting_for_task_timeout
                   , waiting_for_task_session_timeout :=
                       cfg.waiting_for_task_session_timeout
                   , compute_tasks := cfg.accept_tasks }
  change_docker_config env run_benchmarks s1

/-- `TaskComputer.__init__`: the attribute assignments in source order,
including the initial `change_config` call. -/
def taskComputerInit (env : Env) (cfg : ConfigDesc)
    (use_docker_machine_manager : Bool) (benchmarks_needed : Bool) :
    TCState × List Effect :=
  let s0 : TCState := {
      assigned_subtasks := ∅
    , task_to_subtask_mapping := ∅
    , waiting_for_task := none
    , counting_task := none
    , task_requested := false
    , runnable := true
    , current_computations := []
    , last_task_request := env.now
    , waiting_ttl := 0
    , last_checking := env.now
    , use_waiting_ttl := false
    , waiting_for_task_timeout := 0
    , waiting_for_task_session_timeout := 0
    , task_request_frequency := 0
    , compute_tasks := false
    , support_direct_computation := false
    , max_assigned_tasks := 1
    , delta := none
    , last_task_timeout_checking := none
    , use_docker_machine_manager := use_docker_machine_manager
    , stats := ⟨0, 0, 0, 0⟩ }
  let p := change_config env cfg benchmarks_needed s0
  ({ p.1 with compute_tasks := cfg.accept_tasks
            , support_direct_computation := false
            , max_assigned_tasks := 1
            , delta := none
            , last_task_timeout_checking := none }, p.2)

/-- The public operations a claim's event sequence may draw from. -/
inductive Op where
  | op_task_given (ctd : Ctd)
  | op_resource_given (task_id : Nat)
  | op_task_resource_collected (task_id : Nat) (unpack : Bool)
  | op_task_resource_failure (task_id : Nat) (reason : String)
  | op_wait_for_resources (task_id : Nat) (delta : Nat)
  | op_task_request_rejected (task_id : Nat) (reason : String)
  | op_resource_request_rejected (subtask_id : Nat) (reason : String)
  | op_task_computed (tt : TaskThreadDone)
  | op_run
  | op_reset
  | op_change_docker_config (run_benchmarks : Bool)
deriving Repr

/-- One public operation as a state step; `none` models an uncaught
Python exception. -/
def step (env : Env) (op : Op) (s : TCState) : Option (TCState × List Effect) :=
  match op with
  | Op.op_task_given ctd =>
    let p := task_given env ctd s
    some (p.1, p.2.1)
  | Op.op_resource_given task_id =>
    (resource_given env task_id s).map (fun p => (p.1, p.2.1))
  | Op.op_task_resource_collected task_id unpack =>
    (task_resource_collected env task_id unpack s).map (fun p => (p.1, p.2.1))
  | Op.op_task_resource_failure task_id reason =>
    some (task_resource_failure task_id reason s)
  | Op.op_wait_for_resources task_id delta =>
    some (wait_for_resources task_id delta s, [])
  | Op.op_task_request_rejected task_id reason =>
    some (task_request_rejected task_id reason s)
  | Op.op_resource_request_rejected subtask_id reason =>
    some (resource_request_rejected subtask_id reason s)
  | Op.op_task_computed tt => some (task_computed env tt s)
  | Op.op_run => some (run env s)
  | Op.op_reset => some (reset s none, [])
  | Op.op_change_docker_config rb => some (change_docker_config env rb s)

/-- Run a sequence of operations, each with its own environment snapshot;
`none` as soon as a step raises. -/
def runTrace : List (Env × Op) → TCState → Option TCState
  | [], s => some s
  | (env, op) :: rest, s =>
    match step env op s with
    | none => none
    | some (s1, _) => runTrace rest s1

/-- The registry invariant claimed by the spec: a subtask id is a key of
`assigned_subtasks` iff its task id is a key of `task_to_subtask_mapping`,
with matching values. -/
def registryIff (s : TCState) : Prop :=
  (∀ sid ctd, s.assigned_subtasks.lookup sid = some ctd →
      s.task_to_subtask_mapping.lookup ctd.task_id = some sid) ∧
  (∀ task_id sid, s.task_to_subtask_mapping.lookup task_id = some sid →
      ∃ ctd, s.assigned_subtasks.lookup sid = some ctd ∧ ctd.task_id = task_id)

/-- The forward half of the registry invariant, over bare maps: every
assigned subtask's task id is mapped back to that subtask id. -/
def forwardInv (a : AList (fun _ : Nat => Ctd))
    (m : AList (fun _ : Nat => Nat)) : Prop :=
  ∀ sid ctd, a.lookup sid = some ctd → m.lookup ctd.task_id = some sid

/-- The forward half of the registry invariant on a state. -/
def registryForward (s : TCState) : Prop :=
  forwardInv s.assigned_subtasks s.task_to_subtask_mapping

/-- Side condition of the amended registry invariant: a `task_given` call
carries a task id not already mapped. -/
def taskGivenFresh (op : Op) (s : TCState) : Prop :=
  match op with
  | Op.op_task_given ctd => s.task_to_subtask_mapping.lookup ctd.task_id = none
  | _ => True

/-- Number of outbound task-server calls (`send_results` or
`send_task_failed`) in an effect list. -/
def sendCount (effs : List Effect) : Nat :=
  effs.countP (fun e =>
    match e with
    | Effect.send_results _ _ _ _ => true
    | Effect.send_task_failed _ _ _ => true
    | _ => false)

/-- True when every `send_results` paid time and every monitor value in the
effect list equals `v`. -/
def paidAllEq (effs : List Effect) (v : Int) : Bool :=
  effs.all (fun e =>
    match e with
    | Effect.send_results _ _ _ p => p == v
    | Effect.monitor_computation_time_spent _ p => p == v
    | _ => true)

/-- True when the effect list neither spawns a worker nor issues a task
request. -/
def spawnFree (effs : List Effect) : Bool :=
  effs.all (fun e =>
    match e with
    | Effect.spawn_worker _ => false
    | Effect.request_task => false
    | _ => true)

/-- Configuration fixture: request interval 5, resource TTL 30, session
TTL 40, accepting tasks. -/
def cfg0 : ConfigDesc := ⟨5, 30, 40, true⟩

/-- Configuration fixture with the operator accept switch off. -/
def cfgNo : ConfigDesc := ⟨5, 30, 40, false⟩

/-- Environment fixture: clock at 0, task server grants handles 7 and 8,
the task keeper knows no headers, no docker machine. -/
def env0 : Env := ⟨0, some 7, some 8, fun _ => none, false⟩

/-- Task header fixture: deadline 100, subtask timeout 60. -/
def hdr1 : TaskHeader := ⟨100, 60⟩

/-- Environment fixture whose task keeper has a header for task 10. -/
def envH : Env := ⟨0, some 7, some 8, fun t => if t = 10 then some hdr1 else none, false⟩

/-- Like `envH`, with a docker machine present. -/
def envD : Env := ⟨0, some 7, some 8, fun t => if t = 10 then some hdr1 else none, true⟩

/-- Environment fixture with the clock advanced to 100. -/
def env100 : Env := ⟨100, none, none, fun _ => none, false⟩

/-- Subtask 1 of task 10, one docker image. -/
def d1 : Ctd := ⟨1, 10, 80, ["img"], "code", 0, "d", "wd", "addr", 0, "key", 0⟩

/-- Subtask 2 of the same task 10. -/
def d2 : Ctd := ⟨2, 10, 80, ["img"], "code", 0, "d", "wd", "addr", 0, "key", 0⟩

/-- Subtask 3 of task 10 with no docker images. -/
def d3 : Ctd := ⟨3, 10, 80, [], "code", 0, "d", "wd", "addr", 0, "key", 0⟩

/-- The state right after `__init__` under `cfg0`. -/
def s_init : TCState := (taskComputerInit env0 cfg0 false false).1

/-- Like `s_init` but constructed with `use_docker_machine_manager`. -/
def s_init_dmm : TCState := (taskComputerInit env0 cfg0 true false).1

/-- State after accepting subtask 1 (header for task 10 known). -/
def sC : TCState := (task_given envH d1 s_init).1

/-- State after accepting subtask 3 (no docker images). -/
def sE : TCState := (task_given envH d3 s_init).1

/-- A worker completion reporting a timeout error. -/
def ttTimeout : TaskThreadDone := ⟨1, 0, some 50, true, "Task timed out after 60s", none⟩

/-- A worker completion with a well-formed result. -/
def ttOk : TaskThreadDone :=
  ⟨1, 0, some 50, false, "", some [("data", "r"), ("result_type", "bin")]⟩

/-- A worker completion whose result lacks `result_type`. -/
def ttBad : TaskThreadDone := ⟨1, 0, some 50, false, "", some [("data", "r")]⟩

/-- Trace behind the C1 counterexample: accept subtask 1, then have its
resource request rejected. -/
def c1trace : List (Env × Op) :=
  [(env0, Op.op_task_given d1), (env0, Op.op_resource_request_rejected 1 "refused")]

/-- The state the C1 counterexample trace reaches. -/
def c1final : TCState := (runTrace c1trace s_init).getD s_init

/-- State behind the C5 counterexample: subtask 1 accepted and then its
resource request rejected, leaving task 10 dangling in
`task_to_subtask_mapping`. -/
def c5mid : TCState := (runTrace c1trace s_init).getD s_init

/-- Trace reaching a config-locked state: accept subtask 1, then a docker
machine appears and the configuration changes. -/
def c7trace : List (Env × Op) :=
  [(envH, Op.op_task_given d1), (envD, Op.op_change_docker_config false)]

/-- The config-locked state (`runnable = false`) with subtask 1 waiting. -/
def c7pre : TCState := (runTrace c7trace s_init_dmm).getD s_init_dmm

/-- The state after `task_resource_collected` fires in the locked state. -/
def c7final : TCState :=
  match task_resource_collected envD 10 true c7pre with
  | none => c7pre
  | some p => p.1

/-- State for the C8 counterexample: subtask accepted while the operator
accept switch is off. -/
def c8s : TCState := (task_given envH d1 (taskComputerInit env0 cfgNo false false).1).1

/-- The compute step's output on subtask 1 from `sC`. -/
def c10p : TCState × List Effect :=
  (__compute_task envH 1 ["img"] 80 sC).getD (sC, [])

theorem session_closed_assigned (s : TCState) :
    (session_closed s).assigned_subtasks = s.assigned_subtasks := by
  unfold session_closed reset
  split <;> rfl

theorem session_closed_mapping (s : TCState) :
    (session_closed s).task_to_subtask_mapping = s.task_to_subtask_mapping := by
  unfold session_closed reset
  split <;> rfl

/-- C6: `task_resource_failure` on a task id absent from
`task_to_subtask_mapping` is a complete no-op (no state change, no
effect), and a second call with the same task id immediately after a first
call is a no-op. -/
theorem C6_theorem (t : Nat) (r r2 : String) (s : TCState) :
    (s.task_to_subtask_mapping.lookup t = none →
      task_resource_failure t r s = (s, [])) ∧
    task_resource_failure t r2 (task_resource_failure t r s).1
      = ((task_resource_failure t r s).1, []) := by
  have key : ∀ s' : TCState, s'.task_to_subtask_mapping.lookup t = none →
      task_resource_failure t r2 s' = (s', []) := by
    intro s' h
    unfold task_resource_failure
    rw [h]
  constructor
  · intro h
    unfold task_resource_failure
    rw [h]
  · apply key
    rcases hm : s.task_to_subtask_mapping.lookup t with _ | sid
    · simp only [task_resource_failure, hm]
    · simp only [task_resource_failure, hm]
      rcases ha : s.assigned_subtasks.lookup sid with _ | subtask <;>
        simp [ha, session_closed_mapping, AList.lookup_erase]

/-- C6 witness: on the freshly initialised state no task id is mapped, so
both calls are no-ops. -/
theorem C6_witness :
    (task_resource_failure 5 "lost" s_init = (s_init, [])) ∧
    task_resource_failure 5 "lost" (task_resource_failure 5 "lost" s_init).1
      = ((task_resource_failure 5 "lost" s_init).1, []) := by
  have h := C6_theorem 5 "lost" "lost" s_init
  exact ⟨h.1 (by decide), h.2⟩

/-- C9 (amended): when the subtask's `docker_images` is empty and direct
computation is unsupported — and the task keeper's header table contains
the subtask's task id, which the compute step reads unguarded before it
branches — the compute step constructs no worker and appends nothing to
`current_computations`; it pops the subtask from `assigned_subtasks`,
issues exactly a `send_task_failed` with reason
"Host direct task not supported", and leaves `counting_task` cleared.
When the header is absent the lookup raises instead and none of this
happens (see the counterexample). -/
theorem C9_theorem (env : Env) (sid : Nat) (dl : Int) (s : TCState)
    (subtask : Ctd) (th : TaskHeader)
    (hA : s.assigned_subtasks.lookup sid = some subtask)
    (hH : env.task_headers subtask.task_id = some th)
    (hImg : subtask.docker_images = [])
    (hD : s.support_direct_computation = false) :
    __compute_task env sid subtask.docker_images dl s =
      some ({ s with counting_task := none
                   , use_waiting_ttl := false
                   , task_requested := false
                   , waiting_for_task := none
                   , waiting_ttl := 0
                   , assigned_subtasks := s.assigned_subtasks.erase sid },
            [Effect.send_task_failed sid subtask.task_id
                "Host direct task not supported"]) := by
  simp only [__compute_task, hA, hH, hImg, reset, hD]
  simp

/-- C9 witness: subtask 3 has no docker images; collecting its resources
produces only the failure report and spawns nothing. -/
theorem C9_witness :
    __compute_task envH 3 d3.docker_images 80 sE =
      some ({ sE with counting_task := none
                    , use_waiting_ttl := false
                    , task_requested := false
                    , waiting_for_task := none
                    , waiting_ttl := 0
                    , assigned_subtasks := sE.assigned_subtasks.erase 3 },
            [Effect.send_task_failed 3 d3.task_id
                "Host direct task not supported"]) :=
  C9_theorem envH 3 80 sE d3 hdr1 (by decide) (by decide) (by decide) (by decide)

/-- C9 counterexample: subtask 3 is registered with empty `docker_images`
and `support_direct_computation` false, but the task keeper has no header
for task 10, so the unguarded `task_headers[task_id]` read raises before
the unsupported-host branch: the compute step aborts (`none`), the subtask
is not popped and no `send_task_failed` with reason
"Host direct task not supported" is issued, contrary to the claim. -/
theorem C9_counterexample :
    sE.assigned_subtasks.lookup 3 = some d3 ∧
    d3.docker_images = [] ∧
    sE.support_direct_computation = false ∧
    __compute_task env0 3 d3.docker_images 80 sE = none :=
  ⟨by decide, rfl, rfl, rfl⟩

/-- C10: every worker the compute step constructs receives the timeout
obtained by converting the minimum of the task header's deadline and the
subtask's own deadline, so a subtask deadline later than the task deadline
never extends the worker's allowed execution time. -/
theorem C10_theorem (env : Env) (sid : Nat) (imgs : List String) (dl : Int)
    (s : TCState) (subtask : Ctd) (th : TaskHeader)
    (p : TCState × List Effect) (w : Worker)
    (hA : s.assigned_subtasks.lookup sid = some subtask)
    (hH : env.task_headers subtask.task_id = some th)
    (hC : __compute_task env sid imgs dl s = some p)
    (hW : Effect.spawn_worker w ∈ p.2) :
    w.timeout = deadline_to_timeout (min th.deadline dl) env.now ∧
    w.timeout ≤ deadline_to_timeout th.deadline env.now := by
  have hmono : deadline_to_timeout (min th.deadline dl) env.now
      ≤ deadline_to_timeout th.deadline env.now := by
    unfold deadline_to_timeout
    exact Int.sub_le_sub_right (min_le_left _ _) _
  simp only [__compute_task, hA, hH, reset] at hC
  split at hC
  · injection hC with hC
    subst hC
    simp only [List.mem_singleton, Effect.spawn_worker.injEq] at hW
    subst hW
    exact ⟨rfl, hmono⟩
  · split at hC
    · injection hC with hC
      subst hC
      simp only [List.mem_singleton, Effect.spawn_worker.injEq] at hW
      subst hW
      exact ⟨rfl, hmono⟩
    · injection hC with hC
      subst hC
      simp at hW

/-- C10 witness: subtask 1's deadline 80 beats the header deadline 100, so
the worker is spawned with timeout 80 at clock 0. -/
theorem C10_witness :
    (⟨1, 80, true⟩ : Worker).timeout
        = deadline_to_timeout (min hdr1.deadline 80) envH.now ∧
    (⟨1, 80, true⟩ : Worker).timeout
        ≤ deadline_to_timeout hdr1.deadline envH.now :=
  C10_theorem envH 1 ["img"] 80 sC d1 hdr1 c10p ⟨1, 80, true⟩
    (by decide) (by decide) rfl (by decide)

/-- C4: whenever the outcome dispatcher reaches its classification (the
subtask is registered and its task header known), every paid time passed to
`send_results` and every `computation_time_spent` monitor value equals the
header's `subtask_timeout`, irrespective of the worker's wall-clock time
(`tt.start_time` / `tt.end_time` are arbitrary). -/
theorem C4_theorem (env : Env) (tt : TaskThreadDone) (s : TCState)
    (subtask : Ctd) (th : TaskHeader)
    (hA : s.assigned_subtasks.lookup tt.subtask_id = some subtask)
    (hH : env.task_headers subtask.task_id = some th) :
    paidAllEq (task_computed env tt s).2 th.subtask_timeout = true := by
  simp only [task_computed, hA, hH]
  split
  · simp [paidAllEq]
  · split
    · simp [paidAllEq]
    · simp [paidAllEq]

/-- C4 witness: the successful completion of subtask 1 is paid
`hdr1.subtask_timeout = 60`, not its wall clock 50. -/
theorem C4_witness :
    paidAllEq (task_computed envH ttOk sC).2 hdr1.subtask_timeout = true :=
  C4_theorem envH ttOk sC d1 hdr1 (by decide) (by decide)

/-- C2 (amended): for a registered subtask the outcome dispatcher makes
exactly one outbound task-server call when the task keeper's header table
contains the subtask's task id, and none at all when it does not. -/
theorem C2_theorem (env : Env) (tt : TaskThreadDone) (s : TCState)
    (subtask : Ctd)
    (hA : s.assigned_subtasks.lookup tt.subtask_id = some subtask) :
    sendCount (task_computed env tt s).2
      = if (env.task_headers subtask.task_id).isSome then 1 else 0 := by
  rcases hH : env.task_headers subtask.task_id with _ | th
  · simp only [task_computed, hA, hH]
    simp [sendCount]
  · simp only [task_computed, hA, hH]
    split
    · simp [sendCount]
    · split
      · simp [sendCount]
      · simp [sendCount]

/-- C2 witness: with the header known, the dispatcher makes exactly one
outbound call. -/
theorem C2_witness :
    sendCount (task_computed envH ttOk sC).2
      = if (envH.task_headers d1.task_id).isSome then 1 else 0 :=
  C2_theorem envH ttOk sC d1 (by decide)

/-- C2 counterexample: subtask 1 is registered when its worker completes,
but the task keeper has no header for task 10, so the dispatcher makes no
outbound call at all — not exactly one. -/
theorem C2_counterexample :
    (sC.assigned_subtasks.lookup ttOk.subtask_id).isSome = true ∧
    sendCount (task_computed env0 ttOk sC).2 = 0 ∧
    sendCount (task_computed env0 ttOk sC).2 ≠ 1 := by decide

/-- C3 (amended): for a registered subtask whose task header is known, the
dispatcher classifies the completion exactly as claimed: timeout message →
`tasks_with_timeout` increment and failure report with monitor
success=false; other error → `tasks_with_errors` increment and failure
report; no error with a result mapping holding `data` and `result_type` →
`computed_tasks` increment and `send_results` with monitor success=true;
otherwise → `tasks_with_errors` increment and failure report with reason
"Wrong result format". -/
theorem C3_theorem (env : Env) (tt : TaskThreadDone) (s : TCState)
    (subtask : Ctd) (th : TaskHeader)
    (hA : s.assigned_subtasks.lookup tt.subtask_id = some subtask)
    (hH : env.task_headers subtask.task_id = some th) :
    ((tt.error = true ∨ tt.error_msg ≠ "") →
      hasSub tt.error_msg.data "Task timed out".data = true →
      (task_computed env tt s).1.stats.tasks_with_timeout
          = s.stats.tasks_with_timeout + 1 ∧
      (task_computed env tt s).2
          = [Effect.send_task_failed tt.subtask_id subtask.task_id tt.error_msg,
             Effect.monitor_computation_time_spent false th.subtask_timeout]) ∧
    ((tt.error = true ∨ tt.error_msg ≠ "") →
      hasSub tt.error_msg.data "Task timed out".data = false →
      (task_computed env tt s).1.stats.tasks_with_errors
          = s.stats.tasks_with_errors + 1 ∧
      (task_computed env tt s).2
          = [Effect.send_task_failed tt.subtask_id subtask.task_id tt.error_msg,
             Effect.monitor_computation_time_spent false th.subtask_timeout]) ∧
    (tt.error = false → tt.error_msg = "" → resultWellFormed tt.result = true →
      (task_computed env tt s).1.stats.computed_tasks
          = s.stats.computed_tasks + 1 ∧
      (task_computed env tt s).2
          = [Effect.send_results tt.subtask_id subtask.task_id
               (tt.result.getD []) th.subtask_timeout,
             Effect.monitor_computation_time_spent true th.subtask_timeout]) ∧
    (tt.error = false → tt.error_msg = "" → resultWellFormed tt.result = false →
      (task_computed env tt s).1.stats.tasks_with_errors
          = s.stats.tasks_with_errors + 1 ∧
      (task_computed env tt s).2
          = [Effect.send_task_failed tt.subtask_id subtask.task_id
               "Wrong result format",
             Effect.monitor_computation_time_spent false th.subtask_timeout]) := by
  refine ⟨?_, ?_, ?_, ?_⟩
  · intro h1 h2
    have hcond : (tt.error || !(tt.error_msg == "")) = true := by
      rcases h1 with h | h
      · simp [h]
      · simp [h]
    simp [task_computed, hA, hH, hcond, h2]
  · intro h1 h2
    have hcond : (tt.error || !(tt.error_msg == "")) = true := by
      rcases h1 with h | h
      · simp [h]
      · simp [h]
    simp [task_computed, hA, hH, hcond, h2]
  · intro h1 h2 h3
    simp [task_computed, hA, hH, h1, h2, h3]
  · intro h1 h2 h3
    simp [task_computed, hA, hH, h1, h2, h3]

/-- C3 witness: a timeout completion of the registered subtask 1 with the
header known bumps `tasks_with_timeout` and reports the failure. -/
theorem C3_witness :
    (task_computed envH ttTimeout sC).1.stats.tasks_with_timeout
        = sC.stats.tasks_with_timeout + 1 ∧
    (task_computed envH ttTimeout sC).2
        = [Effect.send_task_failed ttTimeout.subtask_id d1.task_id
             ttTimeout.error_msg,
           Effect.monitor_computation_time_spent false hdr1.subtask_timeout] :=
  (C3_theorem envH ttTimeout sC d1 hdr1 (by decide) (by decide)).1
    (Or.inl (by decide)) (by decide)

/-- C3 counterexample: the worker of registered subtask 1 reports a
timeout, but because the task keeper lacks the header for task 10 the
dispatcher increments nothing and sends nothing, contradicting the claimed
classification. -/
theorem C3_counterexample :
    (sC.assigned_subtasks.lookup ttTimeout.subtask_id).isSome = true ∧
    hasSub ttTimeout.error_msg.data "Task timed out".data = true ∧
    (task_computed env0 ttTimeout sC).1.stats.tasks_with_timeout
        ≠ sC.stats.tasks_with_timeout + 1 ∧
    (task_computed env0 ttTimeout sC).2 = [] := by decide

/-- C5 (amended): `task_given` on an unassigned subtask id returns true,
adds exactly one entry to `assigned_subtasks`, and sets
`task_to_subtask_mapping[task_id] := subtask_id` — which adds an entry only
when the task id was not already a key (otherwise it overwrites a dangling
one); an immediate second call with the same subtask id returns false with
no side effects, so `assigned_subtasks` grows by exactly one across the two
calls. -/
theorem C5_theorem (env env2 : Env) (d : Ctd) (s : TCState)
    (h : s.assigned_subtasks.lookup d.subtask_id = none) :
    (task_given env d s).2.2 = true ∧
    (task_given env d s).1.assigned_subtasks.entries.length
      = s.assigned_subtasks.entries.length + 1 ∧
    (task_given env d s).1.assigned_subtasks.lookup d.subtask_id = some d ∧
    (task_given env d s).1.task_to_subtask_mapping.lookup d.task_id
      = some d.subtask_id ∧
    (s.task_to_subtask_mapping.lookup d.task_id = none →
      (task_given env d s).1.task_to_subtask_mapping.entries.length
        = s.task_to_subtask_mapping.entries.length + 1) ∧
    task_given env2 d (task_given env d s).1
      = ((task_given env d s).1, [], false) := by
  have hmem : d.subtask_id ∉ s.assigned_subtasks := AList.lookup_eq_none.mp h
  refine ⟨?_, ?_, ?_, ?_, ?_, ?_⟩
  · simp [task_given, h, __request_resource, wait]
  · simp [task_given, h, __request_resource, wait,
      List.kerase_of_not_mem_keys (fun hk => hmem (AList.mem_keys.mpr hk))]
  · simp [task_given, h, __request_resource, wait, AList.lookup_insert]
  · simp [task_given, h, __request_resource, wait, AList.lookup_insert]
  · intro hm
    have hmem2 : d.task_id ∉ s.task_to_subtask_mapping :=
      AList.lookup_eq_none.mp hm
    simp [task_given, h, __request_resource, wait,
      List.kerase_of_not_mem_keys (fun hk => hmem2 (AList.mem_keys.mpr hk))]
  · simp [task_given, h, __request_resource, wait, AList.lookup_insert]

/-- C5 witness: accepting subtask 1 on the fresh state, then again. -/
theorem C5_witness :
    (task_given env0 d1 s_init).2.2 = true ∧
    (task_given env0 d1 s_init).1.assigned_subtasks.entries.length
      = s_init.assigned_subtasks.entries.length + 1 ∧
    (task_given env0 d1 s_init).1.assigned_subtasks.lookup d1.subtask_id
      = some d1 ∧
    (task_given env0 d1 s_init).1.task_to_subtask_mapping.lookup d1.task_id
      = some d1.subtask_id ∧
    (s_init.task_to_subtask_mapping.lookup d1.task_id = none →
      (task_given env0 d1 s_init).1.task_to_subtask_mapping.entries.length
        = s_init.task_to_subtask_mapping.entries.length + 1) ∧
    task_given env0 d1 (task_given env0 d1 s_init).1
      = ((task_given env0 d1 s_init).1, [], false) :=
  C5_theorem env0 env0 d1 s_init (by decide)

/-- C5 counterexample: after subtask 1 of task 10 is accepted and its
resource request rejected, task 10 dangles in `task_to_subtask_mapping`;
accepting subtask 2 of the same task then returns true but adds no entry to
`task_to_subtask_mapping`, so not every registry map gains exactly one
entry. -/
theorem C5_counterexample :
    c5mid.assigned_subtasks.lookup d2.subtask_id = none ∧
    (task_given env0 d2 c5mid).2.2 = true ∧
    c5mid.task_to_subtask_mapping.entries.length = 1 ∧
    (task_given env0 d2 c5mid).1.task_to_subtask_mapping.entries.length
      = 1 := by decide

/-- C7 (amended): while `runnable = false` the tick loop itself changes no
state, spawns no worker and issues no task request; however the
resource-arrival callbacks (`task_resource_collected`, `resource_given`)
do not consult `runnable` and still spawn workers, as the counterexample
shows. -/
theorem C7_theorem (env : Env) (s : TCState) (h : s.runnable = false) :
    (run env s).1 = s ∧ spawnFree (run env s).2 = true := by
  rcases hc : s.counting_task with _ | ct
  · simp [run, hc, h, spawnFree]
  · simp [run, hc, h, spawnFree, List.all_map, Function.comp]

/-- C7 witness: a tick in the reachable config-locked state is inert. -/
theorem C7_witness :
    (run env0 c7pre).1 = c7pre ∧ spawnFree (run env0 c7pre).2 = true :=
  C7_theorem env0 c7pre (by decide)

/-- C7 counterexample: the state `c7pre` — reached by accepting subtask 1
and then locking the configuration (`runnable = false`) — still spawns a
worker when `task_resource_collected` arrives, so an operation does spawn
a new worker while `runnable = false`. -/
theorem C7_counterexample :
    runTrace c7trace s_init_dmm = some c7pre ∧
    c7pre.runnable = false ∧
    c7pre.current_computations.length = 0 ∧
    (task_resource_collected envD 10 true c7pre).isSome = true ∧
    c7final.runnable = false ∧
    c7final.current_computations.length = 1 :=
  ⟨rfl, by decide, by decide, by decide, by decide, by decide⟩

/-- C8 (amended): on a tick with `counting_task` unset, `waiting_for_task`
set, `use_waiting_ttl` true — and additionally `compute_tasks` and
`runnable` true, which the branch structure of `run` requires —
`waiting_ttl` is decremented by the time elapsed since `last_checking`,
`last_checking` is stamped, and if the decremented TTL drops below zero,
`reset()` runs (clearing `waiting_for_task` and zeroing `waiting_ttl`). -/
theorem C8_theorem (env : Env) (s : TCState)
    (h1 : s.counting_task = none) (h2 : s.waiting_for_task.isSome = true)
    (h3 : s.use_waiting_ttl = true) (h4 : s.compute_tasks = true)
    (h5 : s.runnable = true) :
    (run env s).1.waiting_ttl
        = (if s.waiting_ttl - (env.now - s.last_checking) < 0 then 0
           else s.waiting_ttl - (env.now - s.last_checking)) ∧
    (run env s).1.last_checking = env.now ∧
    (s.waiting_ttl - (env.now - s.last_checking) < 0 →
        (run env s).1.waiting_for_task = none ∧
        (run env s).1.use_waiting_ttl = false ∧
        (run env s).1.waiting_ttl = 0) ∧
    (0 ≤ s.waiting_ttl - (env.now - s.last_checking) →
        (run env s).1 = { s with
            waiting_ttl := s.waiting_ttl - (env.now - s.last_checking)
          , last_checking := env.now }) ∧
    (run env s).2 = [] := by
  have hw : s.waiting_for_task.isNone = false := by
    rcases hv : s.waiting_for_task with _ | v
    · rw [hv] at h2
      simp at h2
    · simp
  by_cases hlt : s.waiting_ttl - (env.now - s.last_checking) < 0
  · refine ⟨?_, ?_, ?_, ?_, ?_⟩ <;>
      simp [run, h1, h4, h5, hw, h3, hlt, reset]
    omega
  · refine ⟨?_, ?_, ?_, ?_, ?_⟩ <;>
      simp [run, h1, h4, h5, hw, h3, hlt, reset]

/-- C8 witness: state `sC` (waiting on handle 8, TTL 30, last check 0) at
clock 100: the TTL drops to −70 < 0, so the tick resets the wait state. -/
theorem C8_witness :
    (run env100 sC).1.waiting_ttl
        = (if sC.waiting_ttl - (env100.now - sC.last_checking) < 0 then 0
           else sC.waiting_ttl - (env100.now - sC.last_checking)) ∧
    (run env100 sC).1.last_checking = env100.now ∧
    (sC.waiting_ttl - (env100.now - sC.last_checking) < 0 →
        (run env100 sC).1.waiting_for_task = none ∧
        (run env100 sC).1.use_waiting_ttl = false ∧
        (run env100 sC).1.waiting_ttl = 0) ∧
    (0 ≤ sC.waiting_ttl - (env100.now - sC.last_checking) →
        (run env100 sC).1 = { sC with
            waiting_ttl := sC.waiting_ttl - (env100.now - sC.last_checking)
          , last_checking := env100.now }) ∧
    (run env100 sC).2 = [] :=
  C8_theorem env100 sC (by decide) (by decide) (by decide) (by decide)
    (by decide)

/-- C8 counterexample: in state `c8s` — reached with the operator accept
switch off — `counting_task` is unset, `waiting_for_task` is set and
`use_waiting_ttl` is true, yet the tick at clock 100 leaves the state
completely unchanged: `waiting_ttl` is not decremented and no reset
happens, because the TTL branch also requires `compute_tasks`. -/
theorem C8_counterexample :
    c8s.counting_task = none ∧
    c8s.waiting_for_task = some 8 ∧
    c8s.use_waiting_ttl = true ∧
    c8s.compute_tasks = false ∧
    c8s.waiting_ttl - (env100.now - c8s.last_checking) < 0 ∧
    (run env100 c8s).1 = c8s ∧
    (run env100 c8s).1.waiting_ttl = c8s.waiting_ttl ∧
    (run env100 c8s).1.waiting_for_task = some 8 :=
  ⟨rfl, rfl, rfl, rfl, by decide, rfl, rfl, rfl⟩

theorem forwardInv_erase_left (a : AList (fun _ : Nat => Ctd))
    (m : AList (fun _ : Nat => Nat)) (sid : Nat)
    (h : forwardInv a m) : forwardInv (a.erase sid) m := by
  intro sid' ctd' h'
  by_cases hs : sid' = sid
  · subst hs
    rw [AList.lookup_erase] at h'
    exact Option.noConfusion h'
  · rw [AList.lookup_erase_ne hs] at h'
    exact h sid' ctd' h'

theorem forwardInv_insert (a : AList (fun _ : Nat => Ctd))
    (m : AList (fun _ : Nat => Nat)) (d : Ctd)
    (hm : m.lookup d.task_id = none) (h : forwardInv a m) :
    forwardInv (a.insert d.subtask_id d) (m.insert d.task_id d.subtask_id) := by
  intro sid' ctd' h'
  by_cases hs : sid' = d.subtask_id
  · subst hs
    rw [AList.lookup_insert] at h'
    injection h' with h''
    subst h''
    rw [AList.lookup_insert]
  · rw [AList.lookup_insert_ne hs] at h'
    have h2 := h sid' ctd' h'
    by_cases ht : ctd'.task_id = d.task_id
    · rw [ht, hm] at h2
      exact Option.noConfusion h2
    · rw [AList.lookup_insert_ne ht]
      exact h2

theorem forwardInv_erase_both (a : AList (fun _ : Nat => Ctd))
    (m : AList (fun _ : Nat => Nat)) (t sid : Nat)
    (hm : m.lookup t = some sid) (h : forwardInv a m) :
    forwardInv (a.erase sid) (m.erase t) := by
  intro sid' ctd' h'
  by_cases hs : sid' = sid
  · subst hs
    rw [AList.lookup_erase] at h'
    exact Option.noConfusion h'
  · rw [AList.lookup_erase_ne hs] at h'
    have h2 := h sid' ctd' h'
    by_cases ht : ctd'.task_id = t
    · rw [ht, hm] at h2
      injection h2 with h3
      exact absurd h3.symm hs
    · rw [AList.lookup_erase_ne ht]
      exact h2

theorem forwardInv_erase_m (a : AList (fun _ : Nat => Ctd))
    (m : AList (fun _ : Nat => Nat)) (t sid : Nat)
    (hm : m.lookup t = some sid) (ha : a.lookup sid = none)
    (h : forwardInv a m) : forwardInv a (m.erase t) := by
  intro sid' ctd' h'
  have h2 := h sid' ctd' h'
  by_cases ht : ctd'.task_id = t
  · rw [ht, hm] at h2
    injection h2 with h3
    subst h3
    rw [ha] at h'
    exact Option.noConfusion h'
  · rw [AList.lookup_erase_ne ht]
    exact h2

theorem compute_task_forward (env : Env) (sid : Nat) (imgs : List String)
    (dl : Int) (s : TCState) (p : TCState × List Effect)
    (hC : __compute_task env sid imgs dl s = some p)
    (h : registryForward s) : registryForward p.1 := by
  simp only [__compute_task, reset] at hC
  split at hC
  · exact Option.noConfusion hC
  · split at hC
    · exact Option.noConfusion hC
    · split at hC
      · injection hC with hC
        subst hC
        exact h
      · split at hC
        · injection hC with hC
          subst hC
          exact h
        · split at hC
          · exact Option.noConfusion hC
          · injection hC with hC
            subst hC
            exact forwardInv_erase_left _ _ _ h

theorem run_forward (env : Env) (s : TCState)
    (h : registryForward s) : registryForward (run env s).1 := by
  simp only [run, __request_task, wait, reset]
  repeat' split
  all_goals exact h


theorem task_given_forward (env : Env) (ctd : Ctd) (s : TCState)
    (hF : s.task_to_subtask_mapping.lookup ctd.task_id = none)
    (h : registryForward s) : registryForward (task_given env ctd s).1 := by
  rcases hl : s.assigned_subtasks.lookup ctd.subtask_id with _ | old
  · unfold registryForward
    simp [task_given, hl, __request_resource, wait]
    exact forwardInv_insert _ _ ctd hF h
  · unfold registryForward
    simp [task_given, hl]
    exact h

theorem task_resource_failure_forward (task_id : Nat) (reason : String)
    (s : TCState) (h : registryForward s) :
    registryForward (task_resource_failure task_id reason s).1 := by
  rcases hm : s.task_to_subtask_mapping.lookup task_id with _ | sid
  · simp only [task_resource_failure, hm]
    exact h
  · simp only [task_resource_failure, hm]
    rcases ha : s.assigned_subtasks.lookup sid with _ | subtask
    · simp only [ha]
      unfold registryForward
      rw [session_closed_assigned, session_closed_mapping]
      exact forwardInv_erase_m _ _ task_id sid hm ha h
    · simp only [ha]
      unfold registryForward
      rw [session_closed_assigned, session_closed_mapping]
      exact forwardInv_erase_both _ _ task_id sid hm h

theorem task_computed_forward (env : Env) (tt : TaskThreadDone) (s : TCState)
    (h : registryForward s) :
    registryForward (task_computed env tt s).1 := by
  rcases ha : s.assigned_subtasks.lookup tt.subtask_id with _ | subtask
  · simp only [task_computed, ha]
    exact h
  · simp only [task_computed, ha]
    rcases hh : env.task_headers subtask.task_id with _ | th
    · simp only [hh]
      exact forwardInv_erase_left _ _ _ h
    · simp only [hh]
      split
      · split
        · exact forwardInv_erase_left _ _ _ h
        · exact forwardInv_erase_left _ _ _ h
      · split
        · exact forwardInv_erase_left _ _ _ h
        · exact forwardInv_erase_left _ _ _ h

theorem change_docker_config_forward (env : Env) (rb : Bool) (s : TCState)
    (h : registryForward s) :
    registryForward (change_docker_config env rb s).1 := by
  unfold change_docker_config
  split
  · exact h
  · split
    · exact h
    · exact h

theorem wait_for_resources_forward (task_id delta : Nat) (s : TCState)
    (h : registryForward s) :
    registryForward (wait_for_resources task_id delta s) := by
  unfold wait_for_resources
  split
  · exact h
  · split
    · exact h
    · exact h

/-- C1 (amended): the forward half of the registry invariant — every
subtask id that is a key of `assigned_subtasks` has its task id a key of
`task_to_subtask_mapping` with `task_to_subtask_mapping[task_id] =
subtask_id` — is preserved by every public operation, provided each
`task_given` call carries a task id not already mapped.  The backward half
of the claimed iff is false: `resource_request_rejected` and
`task_computed` remove only the `assigned_subtasks` entry and leave the
task id dangling in `task_to_subtask_mapping` (see the counterexample). -/
theorem C1_theorem (env : Env) (op : Op) (s s1 : TCState) (effs : List Effect)
    (hInv : registryForward s) (hFresh : taskGivenFresh op s)
    (hStep : step env op s = some (s1, effs)) : registryForward s1 := by
  cases op with
  | op_task_given ctd =>
    simp only [step, Option.some.injEq, Prod.mk.injEq] at hStep
    obtain ⟨h1, -⟩ := hStep
    subst h1
    exact task_given_forward env ctd s hFresh hInv
  | op_resource_given task_id =>
    rcases hm : s.task_to_subtask_mapping.lookup task_id with _ | sid
    · simp only [step, resource_given, hm, Option.map_some', Option.some.injEq,
        Prod.mk.injEq] at hStep
      obtain ⟨h1, -⟩ := hStep
      subst h1
      exact hInv
    · rcases ha : s.assigned_subtasks.lookup sid with _ | subtask
      · simp only [step, resource_given, hm, ha, Option.map_some',
          Option.some.injEq, Prod.mk.injEq] at hStep
        obtain ⟨h1, -⟩ := hStep
        subst h1
        exact hInv
      · rcases hc : __compute_task env sid subtask.docker_images
            subtask.deadline s with _ | p
        · simp only [step, resource_given, hm, ha, hc, Option.map_none'] at hStep
          exact Option.noConfusion hStep
        · obtain ⟨ps, peffs⟩ := p
          simp only [step, resource_given, hm, ha, hc, Option.map_some',
            Option.some.injEq, Prod.mk.injEq] at hStep
          obtain ⟨h1, -⟩ := hStep
          subst h1
          exact compute_task_forward env sid _ _ s (ps, peffs) hc hInv
  | op_task_resource_collected task_id unpack =>
    rcases hm : s.task_to_subtask_mapping.lookup task_id with _ | sid
    · simp only [step, task_resource_collected, hm, Option.map_some',
        Option.some.injEq, Prod.mk.injEq] at hStep
      obtain ⟨h1, -⟩ := hStep
      subst h1
      exact hInv
    · rcases ha : s.assigned_subtasks.lookup sid with _ | subtask
      · simp only [step, task_resource_collected, hm, ha, Option.map_some',
          Option.some.injEq, Prod.mk.injEq] at hStep
        obtain ⟨h1, -⟩ := hStep
        subst h1
        exact hInv
      · rcases hc : __compute_task env sid subtask.docker_images
            subtask.deadline
            { s with delta := none
                   , last_task_timeout_checking := some env.now } with _ | p
        · simp only [step, task_resource_collected, hm, ha, hc,
            Option.map_none'] at hStep
          exact Option.noConfusion hStep
        · obtain ⟨ps, peffs⟩ := p
          simp only [step, task_resource_collected, hm, ha, hc,
            Option.map_some', Option.some.injEq, Prod.mk.injEq] at hStep
          obtain ⟨h1, -⟩ := hStep
          subst h1
          exact compute_task_forward env sid _ _ _ (ps, peffs) hc hInv
  | op_task_resource_failure task_id reason =>
    simp only [step, Option.some.injEq] at hStep
    have h1 : s1 = (task_resource_failure task_id reason s).1 := by rw [hStep]
    rw [h1]
    exact task_resource_failure_forward task_id reason s hInv
  | op_wait_for_resources task_id delta =>
    simp only [step, Option.some.injEq, Prod.mk.injEq] at hStep
    obtain ⟨h1, -⟩ := hStep
    subst h1
    exact wait_for_resources_forward task_id delta s hInv
  | op_task_request_rejected task_id reason =>
    simp only [step, task_request_rejected, Option.some.injEq,
      Prod.mk.injEq] at hStep
    obtain ⟨h1, -⟩ := hStep
    subst h1
    exact hInv
  | op_resource_request_rejected subtask_id reason =>
    simp only [step, resource_request_rejected, reset, Option.some.injEq,
      Prod.mk.injEq] at hStep
    obtain ⟨h1, -⟩ := hStep
    subst h1
    exact forwardInv_erase_left _ _ _ hInv
  | op_task_computed tt =>
    simp only [step, Option.some.injEq] at hStep
    have h1 : s1 = (task_computed env tt s).1 := by rw [hStep]
    rw [h1]
    exact task_computed_forward env tt s hInv
  | op_run =>
    simp only [step, Option.some.injEq] at hStep
    have h1 : s1 = (run env s).1 := by rw [hStep]
    rw [h1]
    exact run_forward env s hInv
  | op_reset =>
    simp only [step, Option.some.injEq, Prod.mk.injEq] at hStep
    obtain ⟨h1, -⟩ := hStep
    subst h1
    exact hInv
  | op_change_docker_config rb =>
    simp only [step, Option.some.injEq] at hStep
    have h1 : s1 = (change_docker_config env rb s).1 := by rw [hStep]
    rw [h1]
    exact change_docker_config_forward env rb s hInv

/-- C1 witness: from the freshly initialised state (empty registries, so
the forward invariant holds vacuously), accepting subtask 1 with the fresh
task id 10 is a successful step that preserves the forward invariant. -/
theorem C1_witness :
    registryForward s_init ∧
    taskGivenFresh (Op.op_task_given d1) s_init ∧
    step env0 (Op.op_task_given d1) s_init
      = some ((task_given env0 d1 s_init).1, [Effect.request_resource 10]) ∧
    registryForward (task_given env0 d1 s_init).1 := by
  have h0 : registryForward s_init := by
    intro sid ctd h
    rw [show AList.lookup sid s_init.assigned_subtasks = none from rfl] at h
    exact Option.noConfusion h
  have hf : taskGivenFresh (Op.op_task_given d1) s_init := rfl
  exact ⟨h0, hf, rfl,
    C1_theorem env0 (Op.op_task_given d1) s_init (task_given env0 d1 s_init).1
      [Effect.request_resource 10] h0 hf rfl⟩

/-- C1 counterexample: after the two public operations `task_given d1` and
`resource_request_rejected 1`, subtask 1 is gone from `assigned_subtasks`
while its task id 10 is still a key of `task_to_subtask_mapping` mapped to
1, so the claimed iff invariant is violated. -/
theorem C1_counterexample :
    runTrace c1trace s_init = some c1final ∧
    c1final.task_to_subtask_mapping.lookup 10 = some 1 ∧
    c1final.assigned_subtasks.lookup 1 = none ∧
    ¬ registryIff c1final := by
  refine ⟨rfl, rfl, rfl, ?_⟩
  intro h
  obtain ⟨ctd, hc, -⟩ := h.2 10 1 rfl
  rw [show AList.lookup 1 c1final.assigned_subtasks = none from rfl] at hc
  exact Option.noConfusion hc
